import Mathlib

/-
Verification of the identity-emulation engine of maskedminers.py:
the user-agent parser (Browser, Platform), the client-hint brand
synthesizer, and the header-assembly policy (MaskedMiner.__init__).

Strings are modelled as `List Char` (all inputs of interest are ASCII,
where Python's code-point indexing coincides with list indexing).
Fallible Python code (uncaught ValueError / IndexError / AttributeError)
is modelled with `Option`: `none` means an exception propagates.
-/

/-- Model of Python's substring test: does `sub` occur at the head of `s`? -/
def startsWithList : List Char → List Char → Bool
  | [], _ => true
  | _ :: _, [] => false
  | a :: as, b :: bs => a == b && startsWithList as bs

/-- Helper for `pyFind`: first index at or after `i` where `sub` occurs. -/
def pyFindAux (sub : List Char) : List Char → Nat → Option Nat
  | [], i => if startsWithList sub [] then some i else none
  | c :: t, i => if startsWithList sub (c :: t) then some i else pyFindAux sub t (i + 1)

/-- Model of Python `s.find(sub)`: lowest index of an occurrence, `none` for -1. -/
def pyFind (s sub : List Char) : Option Nat :=
  pyFindAux sub s 0

/-- Model of Python `sub in s` (substring containment). -/
def pyContains (s sub : List Char) : Bool :=
  (pyFind s sub).isSome

/-- Strip leading and trailing whitespace, as Python `int()` does before parsing. -/
def stripSpaces (s : List Char) : List Char :=
  ((s.dropWhile Char.isWhitespace).reverse.dropWhile Char.isWhitespace).reverse

/-- Numeric value of a digit list. -/
def digitsVal (s : List Char) : Nat :=
  s.foldl (fun a c => a * 10 + (c.toNat - 48)) 0

/-- Model of Python `int(s)`: optional sign, then a nonempty digit run;
anything else raises `ValueError`, modelled as `none`. -/
def pyInt (s : List Char) : Option Int :=
  match stripSpaces s with
  | '+' :: d => if !d.isEmpty && d.all Char.isDigit then some (digitsVal d) else none
  | '-' :: d => if !d.isEmpty && d.all Char.isDigit then some (-(digitsVal d : Int)) else none
  | d => if !d.isEmpty && d.all Char.isDigit then some (digitsVal d) else none

/-- Model of Python `s.split(sep, 1)` when the result is indexed/unpacked as a
pair: `some (before, after)` when `sep` occurs, `none` otherwise. -/
def pyBreak (sep s : List Char) : Option (List Char × List Char) :=
  match pyFind s sep with
  | some i => some (s.take i, s.drop (i + sep.length))
  | none => none

/-- Model of Python `s.rsplit(c, 1)` unpacked as a pair (split at the last
occurrence of the character `c`). -/
def pyRBreakChar (c : Char) (s : List Char) : Option (List Char × List Char) :=
  match s.reverse.findIdx? (fun x => x == c) with
  | some j => some (s.take (s.length - 1 - j), s.drop (s.length - 1 - j + 1))
  | none => none

/-- Model of Python `s.strip(c)` for a single strip character. -/
def pyStripChar (s : List Char) (c : Char) : List Char :=
  ((s.dropWhile (fun x => x == c)).reverse.dropWhile (fun x => x == c)).reverse

/-- Parsed browser facts, mirroring the fields set by `Browser.__init__`
(lines 141-171 of maskedminers.py). -/
structure Browser where
  type : Nat
  version : Int
  chromium_version : Int
deriving DecidableEq, Repr

def Browser.NONE : Nat := 0
def Browser.CHROME : Nat := 1
def Browser.EDGE : Nat := 2
def Browser.FIREFOX : Nat := 3
def Browser.OPERA : Nat := 4
def Browser.SAFARI : Nat := 5

/-- Model of `Browser.uses_chromium` (line 194): `self.chromium_version >= 0`. -/
def Browser.uses_chromium (b : Browser) : Bool :=
  decide (0 ≤ b.chromium_version)

/-- Model of `int(ua[i + len(k) + 1:].split('.', 1)[0])`: the version integer
following token `k` found at index `i`, up to the first dot. -/
def tokenVersion (ua k : List Char) (i : Nat) : Option Int :=
  pyInt ((ua.drop (i + k.length + 1)).takeWhile (fun c => c != '.'))

/-- Model of the `for b in [Browser.EDGE, Browser.OPERA]` loop (lines 152-158):
`some none` when neither token occurs, `some (some (type, version))` on a
match, `none` when the matched version fails to parse (exception). -/
def parseEdgeOpera (ua : List Char) : Option (Option (Nat × Int)) :=
  match pyFind ua "Edg".data with
  | some i => (tokenVersion ua "Edg".data i).map (fun v => some (Browser.EDGE, v))
  | none =>
    match pyFind ua "OPR".data with
    | some i => (tokenVersion ua "OPR".data i).map (fun v => some (Browser.OPERA, v))
    | none => some none

/-- Model of the browser-detection part of `Browser.__init__` (lines 141-171):
Firefox first; else the Edge/Opera loop, then the Chrome token (independent of
the loop's outcome); else the Safari token. `none` models a propagated
`ValueError` from a failed `int()` conversion. -/
def parseBrowser (ua : List Char) : Option Browser :=
  match pyFind ua "Firefox".data with
  | some i => (tokenVersion ua "Firefox".data i).map (fun v => ⟨Browser.FIREFOX, v, -1⟩)
  | none =>
    match parseEdgeOpera ua with
    | none => none
    | some st =>
      match pyFind ua "Chrome".data with
      | some i =>
        match tokenVersion ua "Chrome".data i with
        | none => none
        | some cv =>
          match st with
          | some tv => some ⟨tv.1, tv.2, cv⟩
          | none => some ⟨Browser.CHROME, cv, cv⟩
      | none =>
        match pyFind ua "Safari".data with
        | some i => (tokenVersion ua "Safari".data i).map (fun v => ⟨Browser.SAFARI, v, -1⟩)
        | none =>
          match st with
          | some tv => some ⟨tv.1, tv.2, -1⟩
          | none => some ⟨Browser.NONE, -1, -1⟩

example : parseBrowser "Edg/100.0".data = some ⟨Browser.EDGE, 100, -1⟩ := by decide
example : parseBrowser "Chrome/119.0".data = some ⟨Browser.CHROME, 119, 119⟩ := by decide
example : parseBrowser "Firefox/abc".data = none := by decide
example : parseBrowser "hello".data = some ⟨Browser.NONE, -1, -1⟩ := by decide

/-- Parsed platform facts, mirroring the attributes of `Platform.__init__`
(lines 202-228 of maskedminers.py). `none` in `type` / `is_mobile` models an
attribute that is never assigned (the annotation `self.type:str` on line 208
creates no attribute; on the empty user-agent neither `type` nor `is_mobile`
is ever set). -/
structure Platform where
  type : Option (List Char)
  os : List Char
  os_version : List Char
  is_mobile : Option Bool
deriving DecidableEq, Repr

/-- Model of `ua.split('(', 1)[1].split(')', 1)[0]` (line 214): the
parenthesized system-info substring; `none` models the `IndexError` raised
when the user-agent has no opening parenthesis. -/
def sysInfoOf (ua : List Char) : Option (List Char) :=
  match pyBreak "(".data ua with
  | none => none
  | some pr =>
    match pyBreak ")".data pr.2 with
    | some qr => some qr.1
    | none => some pr.2

/-- Model of `ua.split(' ', 1)[0]` (line 226): the first token of the string. -/
def firstTok (ua : List Char) : List Char :=
  match pyBreak " ".data ua with
  | some pr => pr.1
  | none => ua

/-- Model of `system_info.split(';', 1)[0]` (line 216): the text before the
first semicolon, or the whole string when there is none. -/
def beforeSemi (s : List Char) : List Char :=
  match pyBreak ";".data s with
  | some pr => pr.1
  | none => s

/-- Model of `system_info.split(' ', 2)[1]` (line 223): the second
space-delimited token; `none` models the `IndexError` when there is no
space at all. -/
def splitSecond (s : List Char) : Option (List Char) :=
  match pyBreak " ".data s with
  | none => none
  | some pr => some (firstTok pr.2)

/-- Model of `Platform.__init__` (lines 202-228). `none` models a propagated
exception (`IndexError`/`ValueError` from a failed split or unpack). On the
empty user-agent only a diagnostic is printed and `os`/`os_version` keep
their initial empty values, with `type` and `is_mobile` left unassigned. -/
def parsePlatform (ua : List Char) : Option Platform :=
  if ua.length > 0 then
    match sysInfoOf ua with
    | none => none
    | some system_info =>
      if pyContains system_info "Windows".data then
        match pyBreak " ".data system_info with
        | none => none
        | some pr => some ⟨some (beforeSemi system_info), pr.1, pr.2, some false⟩
      else if pyContains system_info "Macintosh".data then
        match pyBreak "; ".data system_info with
        | none => none
        | some pr =>
          match pyRBreakChar ' ' pr.2 with
          | none => none
          | some qr => some ⟨some "Macintosh".data, qr.1, qr.2, some false⟩
      else if pyContains system_info "X11".data then
        match splitSecond system_info with
        | none => none
        | some second => some ⟨some "Linux".data, pyStripChar second ';', [], some false⟩
      else
        some ⟨some (firstTok ua), [], [], some false⟩
  else
    some ⟨none, [], [], none⟩

def uaEdgeC8 : List Char :=
  "Mozilla/5.0 (Windows NT 10.0; Win64; x64) AppleWebKit/537.36 Chrome/119.0.0.0 Safari/537.36 Edg/119.0.2151.58".data

example : parseBrowser uaEdgeC8 = some ⟨Browser.EDGE, 119, 119⟩ := by decide
example : parsePlatform uaEdgeC8 =
    some ⟨some "Windows NT 10.0".data, "Windows".data, "NT 10.0; Win64; x64".data, some false⟩ := by decide
example : parsePlatform "hello".data = none := by decide
example : parsePlatform [] = some ⟨none, [], [], none⟩ := by decide
example : parsePlatform "foo (bar)".data = some ⟨some "foo".data, [], [], some false⟩ := by decide

/-- Model of `Browser.__brands[t]` (line 132). Python string-formatting of the
`None` entries would render the text `None`; that case is unreachable on the
branding path, which requires `uses_chromium()`. -/
def brandName (t : Nat) : String :=
  if t = Browser.CHROME then "Google Chrome"
  else if t = Browser.EDGE then "Microsoft Edge"
  else if t = Browser.OPERA then "Opera"
  else "None"

/-- Model of the fake-brand label `f'{c1}Not{c2}A{c3}Brand'` (line 176), with
the three filler strings drawn from `misc`. -/
def fakeBrandOf (c1 c2 c3 : String) : String :=
  c1 ++ "Not" ++ c2 ++ "A" ++ c3 ++ "Brand"

/-- The `misc` filler list of line 175. -/
def miscFillers : List String := ["", " ", "_", ";", "(", ")"]

/-- Model of the three-entry `brands` list of lines 178-182, before the
shuffle. The fake brand label and fake version stand for the random draws. -/
def brandsList (b : Browser) (fakeBrand : String) (fakeVersion : Int) : List (String × Int) :=
  [(fakeBrand, fakeVersion), (brandName b.type, b.version), ("Chromium", b.chromium_version)]

/-- Model of the per-entry formatting `f'"{brand[0]}"; v="{brand[1]}"'`
(line 184). -/
def fmtBrand (br : String × Int) : String :=
  "\"" ++ br.1 ++ "\"; v=\"" ++ toString br.2 ++ "\""

/-- Model of the branding assignment of lines 173-186: when
`uses_chromium()`, join the shuffled brand entries with `', '`; otherwise the
branding is the empty string and no synthesis happens. `random.shuffle` is
modelled by the `shuffled` argument, constrained to be a permutation of
`brandsList` in the theorems that use it. -/
def brandingOf (b : Browser) (shuffled : List (String × Int)) : String :=
  if b.uses_chromium then String.intercalate ", " (shuffled.map fmtBrand) else ""

example :
    brandingOf ⟨Browser.CHROME, 119, 119⟩
      [("Not A;Brand", 99), ("Google Chrome", 119), ("Chromium", 119)] =
    "\"Not A;Brand\"; v=\"99\", \"Google Chrome\"; v=\"119\", \"Chromium\"; v=\"119\"" := by decide

/-- A header mapping, modelled as an association list in insertion order
(Python `dict` semantics for the operations used by the code). -/
abbrev Headers := List (String × String)

/-- Key lookup in a header mapping. -/
def lookupH : Headers → String → Option String
  | [], _ => none
  | kv :: t, q => if kv.1 = q then some kv.2 else lookupH t q

/-- Model of `headers.setdefault(k, v)` as a mutation: insert `(k, v)` at the
end when `k` is absent, leave the mapping unchanged otherwise. -/
def setdefault (h : Headers) (k v : String) : Headers :=
  match lookupH h k with
  | some _ => h
  | none => h ++ [(k, v)]

/-- Model of `header.lower().startswith('sec-')` (line 341). Python's
`str.lower` coincides with `Char.toLower` on the ASCII header names at play. -/
def lowerStartsSec (k : String) : Bool :=
  startsWithList "sec-".data (k.data.map Char.toLower)

/-- Model of the deletion loop of lines 340-342: remove every header whose
name case-insensitively starts with `sec-`. -/
def stripSec (h : Headers) : Headers :=
  h.filter (fun kv => !lowerStartsSec kv.1)

example : lowerStartsSec "Sec-CH-UA" = true := by decide
example : lowerStartsSec "accept-language" = false := by decide

/-- Model of Python `int(bool)` in the f-string of line 337. -/
def pyBoolInt (m : Bool) : Int :=
  if m then 1 else 0

/-- An emulated session (the spec's persona): the drawn identity string and
its parsed facts, as held by an `Environment` that was constructed without an
exception. `branding` is the browser's synthesized brand string. -/
structure Session where
  ua : String
  browser : Browser
  branding : String
  platform : Platform

/-- Model of the three unconditional `setdefault` calls of lines 332-334. -/
def baseHeaders (s : Session) (h : Headers) : Headers :=
  setdefault (setdefault (setdefault h "accept-language" "en-US,en;q=0.9") "dnt" "1")
    "user-agent" s.ua

/-- The three `setdefault` calls of lines 336-338, performed on top of the
base headers when the browser uses Chromium. -/
def chromHeaders (s : Session) (h : Headers) (m : Bool) (t : List Char) : Headers :=
  setdefault (setdefault (setdefault (baseHeaders s h)
    "sec-ch-ua" s.branding)
    "sec-ch-ua-mobile" ("?" ++ toString (pyBoolInt m)))
    "sec-ch-ua-platform" ("\"" ++ String.mk t ++ "\"")

/-- Model of the header-assembly policy of `MaskedMiner.__init__`
(lines 331-342). `none` models the `AttributeError` Python would raise when
the chromium branch reads a platform attribute that was never assigned. -/
def applyHeaders (s : Session) (h : Headers) : Option Headers :=
  if s.browser.uses_chromium then
    match s.platform.is_mobile, s.platform.type with
    | some m, some t => some (chromHeaders s h m t)
    | _, _ => none
  else
    some (stripSec (baseHeaders s h))

example :
    applyHeaders ⟨"UA", ⟨Browser.EDGE, 119, 119⟩, "B", ⟨some "Win".data, [], [], some false⟩⟩ [] =
    some [("accept-language", "en-US,en;q=0.9"), ("dnt", "1"), ("user-agent", "UA"),
      ("sec-ch-ua", "B"), ("sec-ch-ua-mobile", "?0"), ("sec-ch-ua-platform", "\"Win\"")] := by
  decide

example :
    applyHeaders ⟨"F", ⟨Browser.FIREFOX, 120, -1⟩, "", ⟨some "W".data, [], [], some false⟩⟩
      [("Sec-CH-UA-Mobile", "?1")] =
    some [("accept-language", "en-US,en;q=0.9"), ("dnt", "1"), ("user-agent", "F")] := by
  decide

theorem lookupH_append (h1 h2 : Headers) (q : String) :
    lookupH (h1 ++ h2) q = ((lookupH h1 q).map some).getD (lookupH h2 q) := by
  induction h1 with
  | nil => rfl
  | cons kv t ih =>
    by_cases hq : kv.1 = q
    · simp [lookupH, hq]
    · simp only [List.cons_append, lookupH, if_neg hq]
      exact ih

theorem lookupH_setdefault (h : Headers) (k v q : String) :
    lookupH (setdefault h k v) q =
      if q = k then some ((lookupH h k).getD v) else lookupH h q := by
  unfold setdefault
  cases hk : lookupH h k with
  | some w =>
    by_cases hq : q = k
    · subst hq; rw [hk, if_pos rfl]; rfl
    · rw [if_neg hq]
  | none =>
    rw [lookupH_append]
    by_cases hq : q = k
    · subst hq; rw [hk, if_pos rfl]; simp [lookupH]
    · rw [if_neg hq]
      have hkq : k ≠ q := fun he => hq he.symm
      cases hh : lookupH h q with
      | some w => rfl
      | none => simp [lookupH, hkq]

theorem lookupH_setdefault_same (h : Headers) (k v : String) :
    lookupH (setdefault h k v) k = some ((lookupH h k).getD v) := by
  rw [lookupH_setdefault, if_pos rfl]

theorem lookupH_setdefault_ne (h : Headers) (k v q : String) (hq : q ≠ k) :
    lookupH (setdefault h k v) q = lookupH h q := by
  rw [lookupH_setdefault, if_neg hq]

theorem lookupH_setdefault_of_some (h : Headers) (k v q w : String)
    (hw : lookupH h q = some w) : lookupH (setdefault h k v) q = some w := by
  rw [lookupH_setdefault]
  by_cases hq : q = k
  · subst hq; rw [if_pos rfl, hw]; rfl
  · rw [if_neg hq]; exact hw

theorem setdefault_of_isSome (h : Headers) (k v : String)
    (hs : (lookupH h k).isSome) : setdefault h k v = h := by
  unfold setdefault
  cases hk : lookupH h k with
  | some w => rfl
  | none => rw [hk] at hs; simp at hs

theorem lookupH_stripSec_not (h : Headers) (q : String)
    (hq : lowerStartsSec q = false) : lookupH (stripSec h) q = lookupH h q := by
  induction h with
  | nil => rfl
  | cons kv t ih =>
    by_cases hk : lowerStartsSec kv.1
    · have hne : kv.1 ≠ q := fun he => by rw [he, hq] at hk; exact Bool.noConfusion hk
      simp only [stripSec, List.filter_cons, hk, Bool.not_true, lookupH, if_neg hne]
      simp only [stripSec] at ih
      simpa using ih
    · rw [Bool.not_eq_true] at hk
      by_cases hne : kv.1 = q
      · simp [stripSec, List.filter_cons, hk, hq, lookupH, hne]
      · simp only [stripSec] at ih
        simp [stripSec, List.filter_cons, hk, lookupH, hne, ih]

theorem lookupH_stripSec_sec (h : Headers) (q : String)
    (hq : lowerStartsSec q = true) : lookupH (stripSec h) q = none := by
  induction h with
  | nil => rfl
  | cons kv t ih =>
    by_cases hk : lowerStartsSec kv.1
    · simp only [stripSec] at ih
      simp [stripSec, List.filter_cons, hk, ih]
    · rw [Bool.not_eq_true] at hk
      have hne : kv.1 ≠ q := fun he => by rw [he, hq] at hk; exact Bool.noConfusion hk
      simp only [stripSec] at ih
      simp [stripSec, List.filter_cons, hk, lookupH, hne, ih]

theorem stripSec_idem (h : Headers) : stripSec (stripSec h) = stripSec h := by
  induction h with
  | nil => rfl
  | cons kv t ih =>
    by_cases hk : lowerStartsSec kv.1
    · simp only [stripSec] at ih
      simp [stripSec, List.filter_cons, hk, ih]
    · rw [Bool.not_eq_true] at hk
      simp only [stripSec] at ih
      simp [stripSec, List.filter_cons, hk, ih]

theorem lookupH_base_al (s : Session) (h : Headers) :
    lookupH (baseHeaders s h) "accept-language" =
      some ((lookupH h "accept-language").getD "en-US,en;q=0.9") := by
  unfold baseHeaders
  rw [lookupH_setdefault_ne _ _ _ _ (by decide), lookupH_setdefault_ne _ _ _ _ (by decide),
    lookupH_setdefault_same]

theorem lookupH_base_dnt (s : Session) (h : Headers) :
    lookupH (baseHeaders s h) "dnt" = some ((lookupH h "dnt").getD "1") := by
  unfold baseHeaders
  rw [lookupH_setdefault_ne _ _ _ _ (by decide), lookupH_setdefault_same,
    lookupH_setdefault_ne _ _ _ _ (by decide)]

theorem lookupH_base_ua (s : Session) (h : Headers) :
    lookupH (baseHeaders s h) "user-agent" =
      some ((lookupH h "user-agent").getD s.ua) := by
  unfold baseHeaders
  rw [lookupH_setdefault_same, lookupH_setdefault_ne _ _ _ _ (by decide),
    lookupH_setdefault_ne _ _ _ _ (by decide)]

theorem lookupH_base_other (s : Session) (h : Headers) (q : String)
    (h1 : q ≠ "accept-language") (h2 : q ≠ "dnt") (h3 : q ≠ "user-agent") :
    lookupH (baseHeaders s h) q = lookupH h q := by
  unfold baseHeaders
  rw [lookupH_setdefault_ne _ _ _ _ h3, lookupH_setdefault_ne _ _ _ _ h2,
    lookupH_setdefault_ne _ _ _ _ h1]

theorem lookupH_base_of_some (s : Session) (h : Headers) (q w : String)
    (hw : lookupH h q = some w) : lookupH (baseHeaders s h) q = some w := by
  unfold baseHeaders
  exact lookupH_setdefault_of_some _ _ _ _ _
    (lookupH_setdefault_of_some _ _ _ _ _ (lookupH_setdefault_of_some _ _ _ _ _ hw))

theorem base_no_op (s : Session) (h : Headers)
    (h1 : (lookupH h "accept-language").isSome)
    (h2 : (lookupH h "dnt").isSome)
    (h3 : (lookupH h "user-agent").isSome) :
    baseHeaders s h = h := by
  unfold baseHeaders
  rw [setdefault_of_isSome _ _ _ h1, setdefault_of_isSome _ _ _ h2,
    setdefault_of_isSome _ _ _ h3]

theorem lookupH_chrom_al (s : Session) (h : Headers) (m : Bool) (t : List Char) :
    lookupH (chromHeaders s h m t) "accept-language" =
      some ((lookupH h "accept-language").getD "en-US,en;q=0.9") := by
  unfold chromHeaders
  rw [lookupH_setdefault_ne _ _ _ _ (by decide), lookupH_setdefault_ne _ _ _ _ (by decide),
    lookupH_setdefault_ne _ _ _ _ (by decide), lookupH_base_al]

theorem lookupH_chrom_dnt (s : Session) (h : Headers) (m : Bool) (t : List Char) :
    lookupH (chromHeaders s h m t) "dnt" = some ((lookupH h "dnt").getD "1") := by
  unfold chromHeaders
  rw [lookupH_setdefault_ne _ _ _ _ (by decide), lookupH_setdefault_ne _ _ _ _ (by decide),
    lookupH_setdefault_ne _ _ _ _ (by decide), lookupH_base_dnt]

theorem lookupH_chrom_ua (s : Session) (h : Headers) (m : Bool) (t : List Char) :
    lookupH (chromHeaders s h m t) "user-agent" =
      some ((lookupH h "user-agent").getD s.ua) := by
  unfold chromHeaders
  rw [lookupH_setdefault_ne _ _ _ _ (by decide), lookupH_setdefault_ne _ _ _ _ (by decide),
    lookupH_setdefault_ne _ _ _ _ (by decide), lookupH_base_ua]

theorem lookupH_chrom_secua (s : Session) (h : Headers) (m : Bool) (t : List Char) :
    (lookupH (chromHeaders s h m t) "sec-ch-ua").isSome = true := by
  unfold chromHeaders
  rw [lookupH_setdefault_ne _ _ _ _ (by decide), lookupH_setdefault_ne _ _ _ _ (by decide),
    lookupH_setdefault_same]
  rfl

theorem lookupH_chrom_secmob (s : Session) (h : Headers) (m : Bool) (t : List Char) :
    (lookupH (chromHeaders s h m t) "sec-ch-ua-mobile").isSome = true := by
  unfold chromHeaders
  rw [lookupH_setdefault_ne _ _ _ _ (by decide), lookupH_setdefault_same]
  rfl

theorem lookupH_chrom_secplat (s : Session) (h : Headers) (m : Bool) (t : List Char) :
    (lookupH (chromHeaders s h m t) "sec-ch-ua-platform").isSome = true := by
  unfold chromHeaders
  rw [lookupH_setdefault_same]
  rfl

theorem lookupH_chrom_of_some (s : Session) (h : Headers) (m : Bool) (t : List Char)
    (q w : String) (hw : lookupH h q = some w) :
    lookupH (chromHeaders s h m t) q = some w := by
  unfold chromHeaders
  exact lookupH_setdefault_of_some _ _ _ _ _ (lookupH_setdefault_of_some _ _ _ _ _
    (lookupH_setdefault_of_some _ _ _ _ _ (lookupH_base_of_some _ _ _ _ hw)))

theorem chrom_no_op (s : Session) (h : Headers) (m : Bool) (t : List Char) :
    chromHeaders s (chromHeaders s h m t) m t = chromHeaders s h m t := by
  conv_lhs => rw [chromHeaders]
  rw [base_no_op s _ (by rw [lookupH_chrom_al]; rfl) (by rw [lookupH_chrom_dnt]; rfl)
    (by rw [lookupH_chrom_ua]; rfl)]
  rw [setdefault_of_isSome _ _ _ (lookupH_chrom_secua s h m t),
    setdefault_of_isSome _ _ _ (lookupH_chrom_secmob s h m t),
    setdefault_of_isSome _ _ _ (lookupH_chrom_secplat s h m t)]

theorem parseEdgeOpera_types (ua : List Char) (t : Nat) (v : Int)
    (h : parseEdgeOpera ua = some (some (t, v))) :
    t = Browser.EDGE ∨ t = Browser.OPERA := by
  unfold parseEdgeOpera at h
  cases h1 : pyFind ua "Edg".data with
  | some i =>
    simp only [h1] at h
    cases h2 : tokenVersion ua "Edg".data i with
    | some w => simp only [h2, Option.map_some'] at h; simp at h; left; exact h.1.symm
    | none => simp only [h2, Option.map_none'] at h; simp at h
  | none =>
    simp only [h1] at h
    cases h2 : pyFind ua "OPR".data with
    | some i =>
      simp only [h2] at h
      cases h3 : tokenVersion ua "OPR".data i with
      | some w => simp only [h3, Option.map_some'] at h; simp at h; right; exact h.1.symm
      | none => simp only [h3, Option.map_none'] at h; simp at h
    | none => simp only [h2] at h; simp at h

theorem parseEdgeOpera_hits (ua : List Char)
    (hc : pyContains ua "Edg".data = true ∨ pyContains ua "OPR".data = true) :
    parseEdgeOpera ua ≠ some none := by
  unfold parseEdgeOpera
  cases h1 : pyFind ua "Edg".data with
  | some i => simp only [h1]; cases h2 : tokenVersion ua "Edg".data i <;> simp [h2]
  | none =>
    simp only [h1]
    cases h2 : pyFind ua "OPR".data with
    | some i => simp only [h2]; cases h3 : tokenVersion ua "OPR".data i <;> simp [h3]
    | none =>
      rcases hc with hc | hc
      · unfold pyContains at hc; rw [h1] at hc; simp at hc
      · unfold pyContains at hc; rw [h2] at hc; simp at hc

/-- C1: every identity string containing an Edge token (`Edg`) or an Opera
token (`OPR`) never parses to the Chrome family, even when a Chrome token is
also present: the specific-brand tokens are checked before the generic
Chrome token, and a family set by that check is kept. -/
theorem claim_C1_edge_opera_never_chrome (ua : List Char) (b : Browser)
    (hcont : pyContains ua "Edg".data = true ∨ pyContains ua "OPR".data = true)
    (hp : parseBrowser ua = some b) :
    b.type ≠ Browser.CHROME := by
  unfold parseBrowser at hp
  cases hF : pyFind ua "Firefox".data with
  | some i =>
    simp only [hF] at hp
    cases hv : tokenVersion ua "Firefox".data i with
    | some v =>
      simp only [hv, Option.map_some'] at hp
      simp at hp
      rw [← hp]
      simp [Browser.FIREFOX, Browser.CHROME]
    | none => simp only [hv, Option.map_none'] at hp; simp at hp
  | none =>
    simp only [hF] at hp
    cases hEO : parseEdgeOpera ua with
    | none => simp only [hEO] at hp; simp at hp
    | some st =>
      simp only [hEO] at hp
      cases st with
      | none => exact absurd hEO (parseEdgeOpera_hits ua hcont)
      | some tv =>
        obtain ⟨t, v⟩ := tv
        have ht := parseEdgeOpera_types ua t v hEO
        cases hC : pyFind ua "Chrome".data with
        | some i =>
          simp only [hC] at hp
          cases hcv : tokenVersion ua "Chrome".data i with
          | none => simp only [hcv] at hp; simp at hp
          | some cv =>
            simp only [hcv] at hp
            simp at hp
            rw [← hp]
            rcases ht with h | h <;> simp [h, Browser.EDGE, Browser.OPERA, Browser.CHROME]
        | none =>
          simp only [hC] at hp
          cases hS : pyFind ua "Safari".data with
          | some i =>
            simp only [hS] at hp
            cases hv : tokenVersion ua "Safari".data i with
            | some v' =>
              simp only [hv, Option.map_some'] at hp
              simp at hp
              rw [← hp]
              simp [Browser.SAFARI, Browser.CHROME]
            | none => simp only [hv, Option.map_none'] at hp; simp at hp
          | none =>
            simp only [hS] at hp
            simp at hp
            rw [← hp]
            rcases ht with h | h <;> simp [h, Browser.EDGE, Browser.OPERA, Browser.CHROME]

/-- C1 witness: the concrete Opera identity string `OPR/95.0.1` contains an
Opera token, parses successfully, and is not classified as Chrome. -/
theorem claim_C1_witness :
    (pyContains "OPR/95.0.1".data "Edg".data = true ∨
      pyContains "OPR/95.0.1".data "OPR".data = true) ∧
    parseBrowser "OPR/95.0.1".data = some ⟨Browser.OPERA, 95, -1⟩ ∧
    (⟨Browser.OPERA, 95, -1⟩ : Browser).type ≠ Browser.CHROME :=
  ⟨Or.inr (by decide), by decide,
    claim_C1_edge_opera_never_chrome "OPR/95.0.1".data ⟨Browser.OPERA, 95, -1⟩
      (Or.inr (by decide)) (by decide)⟩

/-- C2 counterexample: the identity string `Edg/100.0` contains an Edge token
but no Chrome token; it parses to family Edge with `chromium_version = -1`,
so `chromiumVersion >= 0 iff family in Chrome/Edge/Opera` fails (the family is
Edge while `uses_chromium()` is false). -/
theorem claim_C2_counterexample :
    parseBrowser "Edg/100.0".data = some ⟨Browser.EDGE, 100, -1⟩ ∧
    ¬((⟨Browser.EDGE, 100, -1⟩ : Browser).uses_chromium = true ↔
      ((⟨Browser.EDGE, 100, -1⟩ : Browser).type = Browser.CHROME ∨
       (⟨Browser.EDGE, 100, -1⟩ : Browser).type = Browser.EDGE ∨
       (⟨Browser.EDGE, 100, -1⟩ : Browser).type = Browser.OPERA)) := by
  exact ⟨by decide, by decide⟩

/-- C2 (amended): for every identity string whose parse succeeds,
`chromiumVersion >= 0` (that is, `uses_chromium()`) implies that the detected
family is Chrome, Edge, or Opera; the converse direction is refuted by
`claim_C2_counterexample`. -/
theorem claim_C2_chromium_implies_family (ua : List Char) (b : Browser)
    (hp : parseBrowser ua = some b) (hc : b.uses_chromium = true) :
    b.type = Browser.CHROME ∨ b.type = Browser.EDGE ∨ b.type = Browser.OPERA := by
  unfold parseBrowser at hp
  cases hF : pyFind ua "Firefox".data with
  | some i =>
    simp only [hF] at hp
    cases hv : tokenVersion ua "Firefox".data i with
    | some v =>
      simp only [hv, Option.map_some'] at hp
      simp at hp
      rw [← hp] at hc
      simp [Browser.uses_chromium] at hc
    | none => simp only [hv, Option.map_none'] at hp; simp at hp
  | none =>
    simp only [hF] at hp
    cases hEO : parseEdgeOpera ua with
    | none => simp only [hEO] at hp; simp at hp
    | some st =>
      simp only [hEO] at hp
      cases hC : pyFind ua "Chrome".data with
      | some i =>
        simp only [hC] at hp
        cases hcv : tokenVersion ua "Chrome".data i with
        | none => simp only [hcv] at hp; simp at hp
        | some cv =>
          simp only [hcv] at hp
          cases st with
          | none =>
            simp at hp
            rw [← hp]
            left
            rfl
          | some tv =>
            obtain ⟨t, v⟩ := tv
            have ht := parseEdgeOpera_types ua t v hEO
            simp at hp
            rw [← hp]
            rcases ht with h | h
            · right; left; exact h
            · right; right; exact h
      | none =>
        simp only [hC] at hp
        cases hS : pyFind ua "Safari".data with
        | some i =>
          simp only [hS] at hp
          cases hv : tokenVersion ua "Safari".data i with
          | some v =>
            simp only [hv, Option.map_some'] at hp
            simp at hp
            rw [← hp] at hc
            simp [Browser.uses_chromium] at hc
          | none => simp only [hv, Option.map_none'] at hp; simp at hp
        | none =>
          simp only [hS] at hp
          cases st with
          | none =>
            simp at hp
            rw [← hp] at hc
            simp [Browser.uses_chromium] at hc
          | some tv =>
            simp at hp
            rw [← hp] at hc
            simp [Browser.uses_chromium] at hc

/-- C2 witness: the concrete identity string `Chrome/119.0` parses with
`chromium_version = 119 >= 0` and its family is indeed among
Chrome/Edge/Opera. -/
theorem claim_C2_witness :
    parseBrowser "Chrome/119.0".data = some ⟨Browser.CHROME, 119, 119⟩ ∧
    ((⟨Browser.CHROME, 119, 119⟩ : Browser).type = Browser.CHROME ∨
     (⟨Browser.CHROME, 119, 119⟩ : Browser).type = Browser.EDGE ∨
     (⟨Browser.CHROME, 119, 119⟩ : Browser).type = Browser.OPERA) :=
  ⟨by decide, claim_C2_chromium_implies_family "Chrome/119.0".data
    ⟨Browser.CHROME, 119, 119⟩ (by decide) (by decide)⟩

/-- C5: at the concrete identity string `Firefox/abc` the Firefox token is
present but the version field is not an integer; `Browser.__init__` computes
`int('abc')`, whose `ValueError` propagates (modelled as `none`), instead of
substituting the -1 sentinel and continuing as the claim (and the spec's
stated policy) requires. -/
theorem claim_C5_version_abort :
    pyContains "Firefox/abc".data "Firefox".data = true ∧
    parseBrowser "Firefox/abc".data = none := by
  exact ⟨by decide, by decide⟩

/-- C6: the concrete identity string `hello` contains none of the recognized
family tokens; browser parsing indeed returns family None with version -1 and
no exception, but `Platform.__init__` raises an `IndexError` (modelled as
`none`) at `ua.split('(', 1)[1]`, so an exception does escape the combined
parse, contrary to the claim. -/
theorem claim_C6_platform_abort :
    pyContains "hello".data "Chrome".data = false ∧
    pyContains "hello".data "Edg".data = false ∧
    pyContains "hello".data "Firefox".data = false ∧
    pyContains "hello".data "OPR".data = false ∧
    pyContains "hello".data "Safari".data = false ∧
    parseBrowser "hello".data = some ⟨Browser.NONE, -1, -1⟩ ∧
    parsePlatform "hello".data = none := by
  exact ⟨by decide, by decide, by decide, by decide, by decide, by decide, by decide⟩

/-- C8: round-trip of the specific Edge identity string: family Edge,
version 119, chromium version 119, platform type `Windows NT 10.0`, and
is_mobile false. -/
theorem claim_C8_roundtrip :
    (parseBrowser uaEdgeC8).map Browser.type = some Browser.EDGE ∧
    (parseBrowser uaEdgeC8).map Browser.version = some 119 ∧
    (parseBrowser uaEdgeC8).map Browser.chromium_version = some 119 ∧
    (parsePlatform uaEdgeC8).map Platform.type = some (some "Windows NT 10.0".data) ∧
    (parsePlatform uaEdgeC8).map Platform.is_mobile = some (some false) := by
  exact ⟨by decide, by decide, by decide, by decide, by decide⟩

/-- C3: the header policy ensures `accept-language`, the do-not-track header
(keyed `dnt`), and `user-agent` (defaulting to the session identity string)
are present without overwriting caller-set keys; for a Chromium session it
additionally ensures the three `sec-ch-ua*` headers are present, overwriting
nothing; for a non-Chromium session every header whose name case-insensitively
starts with `sec-` is removed. -/
theorem claim_C3_header_policy (s : Session) (h out : Headers)
    (happ : applyHeaders s h = some out) :
    lookupH out "accept-language" =
      some ((lookupH h "accept-language").getD "en-US,en;q=0.9") ∧
    lookupH out "dnt" = some ((lookupH h "dnt").getD "1") ∧
    lookupH out "user-agent" = some ((lookupH h "user-agent").getD s.ua) ∧
    (s.browser.uses_chromium = true →
      (∀ q w, lookupH h q = some w → lookupH out q = some w) ∧
      (lookupH out "sec-ch-ua").isSome = true ∧
      (lookupH out "sec-ch-ua-mobile").isSome = true ∧
      (lookupH out "sec-ch-ua-platform").isSome = true) ∧
    (s.browser.uses_chromium = false →
      ∀ q, lowerStartsSec q = true → lookupH out q = none) := by
  unfold applyHeaders at happ
  by_cases hc : s.browser.uses_chromium = true
  · rw [if_pos hc] at happ
    cases hm : s.platform.is_mobile with
    | none => simp only [hm] at happ; exact Option.noConfusion happ
    | some m =>
      cases ht : s.platform.type with
      | none => simp only [hm, ht] at happ; exact Option.noConfusion happ
      | some t =>
        simp only [hm, ht, Option.some.injEq] at happ
        refine ⟨?_, ?_, ?_, fun _ => ⟨?_, ?_, ?_, ?_⟩, fun hcf => absurd hc (by simp [hcf])⟩
        · rw [← happ, lookupH_chrom_al]
        · rw [← happ, lookupH_chrom_dnt]
        · rw [← happ, lookupH_chrom_ua]
        · intro q w hw
          rw [← happ]
          exact lookupH_chrom_of_some _ _ _ _ _ _ hw
        · rw [← happ]; exact lookupH_chrom_secua s h m t
        · rw [← happ]; exact lookupH_chrom_secmob s h m t
        · rw [← happ]; exact lookupH_chrom_secplat s h m t
  · rw [if_neg hc] at happ
    simp only [Option.some.injEq] at happ
    refine ⟨?_, ?_, ?_, fun hct => absurd hct hc, fun _ q hq => ?_⟩
    · rw [← happ, lookupH_stripSec_not _ _ (by decide), lookupH_base_al]
    · rw [← happ, lookupH_stripSec_not _ _ (by decide), lookupH_base_dnt]
    · rw [← happ, lookupH_stripSec_not _ _ (by decide), lookupH_base_ua]
    · rw [← happ, lookupH_stripSec_sec _ _ hq]

def sessC3 : Session :=
  ⟨"UA3", ⟨Browser.EDGE, 119, 119⟩, "B3", ⟨some "W3".data, [], [], some false⟩⟩

def hdrC3 : Headers := [("user-agent", "custom")]

def outC3 : Headers :=
  [("user-agent", "custom"), ("accept-language", "en-US,en;q=0.9"), ("dnt", "1"),
    ("sec-ch-ua", "B3"), ("sec-ch-ua-mobile", "?0"), ("sec-ch-ua-platform", "\"W3\"")]

/-- C3 witness: for a concrete Chromium session and caller headers presetting
`user-agent`, the policy keeps the caller value, adds the missing base
headers, and the `sec-ch-ua*` headers are present. -/
theorem claim_C3_witness :
    applyHeaders sessC3 hdrC3 = some outC3 ∧
    lookupH outC3 "user-agent" = some "custom" ∧
    lookupH outC3 "accept-language" = some "en-US,en;q=0.9" ∧
    (lookupH outC3 "sec-ch-ua").isSome = true :=
  ⟨by decide,
    ((claim_C3_header_policy sessC3 hdrC3 outC3 (by decide)).2.2.1).trans (by decide),
    ((claim_C3_header_policy sessC3 hdrC3 outC3 (by decide)).1).trans (by decide),
    ((claim_C3_header_policy sessC3 hdrC3 outC3 (by decide)).2.2.2.1 (by decide)).2.1⟩

/-- C9 (amended): the policy is idempotent — a second application with the
same session returns the same mapping unchanged — and a key present before
the first application keeps its value, except that for a non-Chromium
session every key that case-insensitively starts with `sec-` is removed by
the first application. -/
theorem claim_C9_idempotent (s : Session) (h out : Headers)
    (happ : applyHeaders s h = some out) :
    applyHeaders s out = some out ∧
    (∀ q w, lookupH h q = some w →
      ¬(s.browser.uses_chromium = false ∧ lowerStartsSec q = true) →
      lookupH out q = some w) := by
  unfold applyHeaders at happ
  by_cases hc : s.browser.uses_chromium = true
  · rw [if_pos hc] at happ
    cases hm : s.platform.is_mobile with
    | none => simp only [hm] at happ; exact Option.noConfusion happ
    | some m =>
      cases ht : s.platform.type with
      | none => simp only [hm, ht] at happ; exact Option.noConfusion happ
      | some t =>
        simp only [hm, ht, Option.some.injEq] at happ
        constructor
        · unfold applyHeaders
          rw [if_pos hc]
          simp only [hm, ht, Option.some.injEq]
          rw [← happ]
          exact chrom_no_op s h m t
        · intro q w hw _
          rw [← happ]
          exact lookupH_chrom_of_some _ _ _ _ _ _ hw
  · rw [if_neg hc] at happ
    simp only [Option.some.injEq] at happ
    have hcf : s.browser.uses_chromium = false := by
      rw [Bool.not_eq_true] at hc; exact hc
    constructor
    · unfold applyHeaders
      rw [if_neg hc]
      rw [← happ]
      rw [base_no_op s _
        (by rw [lookupH_stripSec_not _ _ (by decide), lookupH_base_al]; rfl)
        (by rw [lookupH_stripSec_not _ _ (by decide), lookupH_base_dnt]; rfl)
        (by rw [lookupH_stripSec_not _ _ (by decide), lookupH_base_ua]; rfl)]
      rw [stripSec_idem]
    · intro q w hw hn
      have hq : lowerStartsSec q = false := by
        cases hqq : lowerStartsSec q with
        | false => rfl
        | true => exact absurd ⟨hcf, hqq⟩ hn
      rw [← happ, lookupH_stripSec_not _ _ hq]
      exact lookupH_base_of_some _ _ _ _ hw

def uaFx : String :=
  "Mozilla/5.0 (Windows NT 10.0; Win64; x64; rv:109.0) Gecko/20100101 Firefox/120.0"

def sessFx : Session :=
  ⟨uaFx, ⟨Browser.FIREFOX, 120, -1⟩, "",
    ⟨some "Windows NT 10.0".data, "Windows".data, "NT 10.0; Win64; x64; rv:109.0".data,
      some false⟩⟩

/-- C9 counterexample: for the non-Chromium session parsed from the Firefox
identity string, a caller-set `sec-ch-ua-mobile` header is present before the
first application of the policy but absent afterwards — applying the policy
(once, hence also twice) changes a key that was present before the first
application, refuting the claim as stated. -/
theorem claim_C9_counterexample :
    parseBrowser uaFx.data = some sessFx.browser ∧
    parsePlatform uaFx.data = some sessFx.platform ∧
    lookupH [("sec-ch-ua-mobile", "?1")] "sec-ch-ua-mobile" = some "?1" ∧
    applyHeaders sessFx [("sec-ch-ua-mobile", "?1")] =
      some [("accept-language", "en-US,en;q=0.9"), ("dnt", "1"), ("user-agent", uaFx)] ∧
    lookupH [("accept-language", "en-US,en;q=0.9"), ("dnt", "1"), ("user-agent", uaFx)]
      "sec-ch-ua-mobile" = none := by
  exact ⟨by decide, by decide, by decide, by decide, by decide⟩

def sessC9 : Session :=
  ⟨"UA9", ⟨Browser.CHROME, 120, 120⟩, "B9", ⟨some "L9".data, [], [], some false⟩⟩

def hdrC9 : Headers := [("x-custom", "1")]

def outC9 : Headers :=
  [("x-custom", "1"), ("accept-language", "en-US,en;q=0.9"), ("dnt", "1"),
    ("user-agent", "UA9"), ("sec-ch-ua", "B9"), ("sec-ch-ua-mobile", "?0"),
    ("sec-ch-ua-platform", "\"L9\"")]

/-- C9 witness: for a concrete Chromium session, applying the policy a second
time returns the produced mapping unchanged, and the caller-set non-sec key
keeps its value. -/
theorem claim_C9_witness :
    applyHeaders sessC9 hdrC9 = some outC9 ∧
    applyHeaders sessC9 outC9 = some outC9 ∧
    lookupH outC9 "x-custom" = some "1" :=
  ⟨by decide, (claim_C9_idempotent sessC9 hdrC9 outC9 (by decide)).1,
    (claim_C9_idempotent sessC9 hdrC9 outC9 (by decide)).2 "x-custom" "1"
      (by decide) (by decide)⟩

/-- C10: platform parsing of every non-empty identity string sets `is_mobile`
to `False` unconditionally (the engine never emulates a mobile platform); on
the empty identity string `is_mobile` is never assigned; consequently,
whenever the header policy adds `sec-ch-ua-mobile` for a session whose
platform was parsed (is_mobile false), its value is `?0`. -/
theorem claim_C10_never_mobile :
    (∀ (ua : List Char) (p : Platform), ua ≠ [] → parsePlatform ua = some p →
      p.is_mobile = some false) ∧
    parsePlatform [] = some ⟨none, [], [], none⟩ ∧
    (∀ (s : Session) (h out : Headers),
      applyHeaders s h = some out →
      s.platform.is_mobile = some false →
      s.browser.uses_chromium = true →
      lookupH h "sec-ch-ua-mobile" = none →
      lookupH out "sec-ch-ua-mobile" = some "?0") := by
  refine ⟨?_, by decide, ?_⟩
  · intro ua p hne hp
    unfold parsePlatform at hp
    have hlen : ua.length > 0 := by
      cases ua with
      | nil => exact absurd rfl hne
      | cons c t => simp
    rw [if_pos hlen] at hp
    cases hsi : sysInfoOf ua with
    | none => simp only [hsi] at hp; exact Option.noConfusion hp
    | some si =>
      simp only [hsi] at hp
      by_cases hW : pyContains si "Windows".data = true
      · rw [if_pos hW] at hp
        cases hbr : pyBreak " ".data si with
        | none => simp only [hbr] at hp; exact Option.noConfusion hp
        | some pr =>
          simp only [hbr, Option.some.injEq] at hp
          rw [← hp]
      · rw [if_neg hW] at hp
        by_cases hM : pyContains si "Macintosh".data = true
        · rw [if_pos hM] at hp
          cases hbr : pyBreak "; ".data si with
          | none => simp only [hbr] at hp; exact Option.noConfusion hp
          | some pr =>
            simp only [hbr] at hp
            cases hrb : pyRBreakChar ' ' pr.2 with
            | none => simp only [hrb] at hp; exact Option.noConfusion hp
            | some qr =>
              simp only [hrb, Option.some.injEq] at hp
              rw [← hp]
        · rw [if_neg hM] at hp
          by_cases hX : pyContains si "X11".data = true
          · rw [if_pos hX] at hp
            cases hsp : splitSecond si with
            | none => simp only [hsp] at hp; exact Option.noConfusion hp
            | some second =>
              simp only [hsp, Option.some.injEq] at hp
              rw [← hp]
          · rw [if_neg hX] at hp
            simp only [Option.some.injEq] at hp
            rw [← hp]
  · intro s h out happ hm hc habs
    unfold applyHeaders at happ
    rw [if_pos hc] at happ
    cases ht : s.platform.type with
    | none => simp only [hm, ht] at happ; exact Option.noConfusion happ
    | some t =>
      simp only [hm, ht, Option.some.injEq] at happ
      rw [← happ]
      unfold chromHeaders
      rw [lookupH_setdefault_ne _ _ _ _ (by decide), lookupH_setdefault_same,
        lookupH_setdefault_ne _ _ _ _ (by decide),
        lookupH_base_other _ _ _ (by decide) (by decide) (by decide), habs]
      decide

def sessC10 : Session :=
  ⟨"UAX", ⟨Browser.OPERA, 101, 101⟩, "BX", ⟨some "LX".data, [], [], some false⟩⟩

/-- C10 witness: a concrete non-empty identity string parses with
`is_mobile = False`, and a concrete Chromium session with no caller-set
`sec-ch-ua-mobile` gets it set to `?0`. -/
theorem claim_C10_witness :
    (⟨some "Windows 10".data, "Windows".data, "10".data, some false⟩ : Platform).is_mobile =
      some false ∧
    lookupH [("accept-language", "en-US,en;q=0.9"), ("dnt", "1"), ("user-agent", "UAX"),
      ("sec-ch-ua", "BX"), ("sec-ch-ua-mobile", "?0"), ("sec-ch-ua-platform", "\"LX\"")]
      "sec-ch-ua-mobile" = some "?0" :=
  ⟨claim_C10_never_mobile.1 "a (Windows 10)".data
      ⟨some "Windows 10".data, "Windows".data, "10".data, some false⟩
      (by decide) (by decide),
    claim_C10_never_mobile.2.2 sessC10 []
      [("accept-language", "en-US,en;q=0.9"), ("dnt", "1"), ("user-agent", "UAX"),
        ("sec-ch-ua", "BX"), ("sec-ch-ua-mobile", "?0"), ("sec-ch-ua-platform", "\"LX\"")]
      (by decide) (by decide) (by decide) (by decide)⟩

/-- C4: for a Chromium-family `Browser` (chromium_version >= 0), the
synthesized brand string is the `', '`-join of the three shuffled entries,
each formatted `"<label>"; v="<version>"`, and the versions of the shuffled
entries are, as a multiset, exactly the fake version, the browser version,
and the chromium version; for a non-Chromium `Browser` the brand value is the
empty string and no synthesis is performed. The fake version models
`random.randint(1, 100)` and the shuffle models `random.shuffle`. -/
theorem claim_C4_branding (b : Browser) (fakeBrand : String) (fakeVersion : Int)
    (shuffled : List (String × Int))
    (hfv : 1 ≤ fakeVersion ∧ fakeVersion ≤ 100)
    (hperm : shuffled.Perm (brandsList b fakeBrand fakeVersion)) :
    (b.uses_chromium = true →
      brandingOf b shuffled = String.intercalate ", " (shuffled.map fmtBrand) ∧
      shuffled.length = 3 ∧
      (shuffled.map Prod.snd).Perm [fakeVersion, b.version, b.chromium_version]) ∧
    (b.uses_chromium = false → brandingOf b shuffled = "") := by
  constructor
  · intro hc
    refine ⟨?_, ?_, ?_⟩
    · unfold brandingOf
      rw [if_pos hc]
    · rw [hperm.length_eq]
      rfl
    · exact hperm.map Prod.snd
  · intro hcf
    unfold brandingOf
    simp [hcf]

def shuffC4 : List (String × Int) :=
  [("Chromium", 119), ("Google Chrome", 119), (";Not_A Brand", 33)]

/-- C4 witness: a concrete Chromium browser with a concrete shuffle of the
brand entries produces the joined 3-entry string with the expected version
multiset, and the same shuffle on a non-Chromium browser would give the empty
branding. -/
theorem claim_C4_witness :
    ((⟨Browser.CHROME, 119, 119⟩ : Browser).uses_chromium = true →
      brandingOf ⟨Browser.CHROME, 119, 119⟩ shuffC4 =
        String.intercalate ", " (shuffC4.map fmtBrand) ∧
      shuffC4.length = 3 ∧
      (shuffC4.map Prod.snd).Perm
        [33, (⟨Browser.CHROME, 119, 119⟩ : Browser).version,
          (⟨Browser.CHROME, 119, 119⟩ : Browser).chromium_version]) ∧
    ((⟨Browser.CHROME, 119, 119⟩ : Browser).uses_chromium = false →
      brandingOf ⟨Browser.CHROME, 119, 119⟩ shuffC4 = "") :=
  claim_C4_branding ⟨Browser.CHROME, 119, 119⟩ ";Not_A Brand" 33 shuffC4
    (by decide) (by decide)

/-- C7 counterexample: the non-empty identity string `UnknownAgent/1.0` has no
parenthesized system-info section, so `Platform.__init__` raises an
`IndexError` (modelled as `none`): no `PlatformFacts` with `platformType` set
is produced for it, refuting the claim that `platformType` is always set. -/
theorem claim_C7_counterexample :
    "UnknownAgent/1.0".data ≠ ([] : List Char) ∧
    parsePlatform "UnknownAgent/1.0".data = none := by
  exact ⟨by decide, by decide⟩

/-- C7 (amended): for every identity string whose platform parse succeeds
(the string is empty or contains `(` and the branch-specific splits succeed),
`platformType` is set on a non-empty string, falling back to the first token
of the whole identity string when the system-info section matches no
recognized OS marker; on the empty identity string, `os` and `osVersion` are
empty while `platformType` and `isMobile` are left unassigned, after a
diagnostic only. -/
theorem claim_C7_platform_type (ua : List Char) (p : Platform)
    (hp : parsePlatform ua = some p) :
    (ua = [] → p = ⟨none, [], [], none⟩) ∧
    (ua ≠ [] → (p.type).isSome = true) ∧
    (∀ si, sysInfoOf ua = some si →
      pyContains si "Windows".data = false →
      pyContains si "Macintosh".data = false →
      pyContains si "X11".data = false →
      p.type = some (firstTok ua)) := by
  unfold parsePlatform at hp
  by_cases hlen : ua.length > 0
  · rw [if_pos hlen] at hp
    have hne : ua ≠ [] := by
      intro he
      rw [he] at hlen
      simp at hlen
    cases hsi : sysInfoOf ua with
    | none => simp only [hsi] at hp; exact Option.noConfusion hp
    | some si =>
      simp only [hsi] at hp
      by_cases hW : pyContains si "Windows".data = true
      · rw [if_pos hW] at hp
        cases hbr : pyBreak " ".data si with
        | none => simp only [hbr] at hp; exact Option.noConfusion hp
        | some pr =>
          simp only [hbr, Option.some.injEq] at hp
          refine ⟨fun he => absurd he hne, fun _ => ?_, fun si' hsi' hW' _ _ => ?_⟩
          · rw [← hp]
            rfl
          · injection hsi' with he
            rw [← he] at hW'
            rw [hW'] at hW
            exact Bool.noConfusion hW
      · rw [if_neg hW] at hp
        by_cases hM : pyContains si "Macintosh".data = true
        · rw [if_pos hM] at hp
          cases hbr : pyBreak "; ".data si with
          | none => simp only [hbr] at hp; exact Option.noConfusion hp
          | some pr =>
            simp only [hbr] at hp
            cases hrb : pyRBreakChar ' ' pr.2 with
            | none => simp only [hrb] at hp; exact Option.noConfusion hp
            | some qr =>
              simp only [hrb, Option.some.injEq] at hp
              refine ⟨fun he => absurd he hne, fun _ => ?_, fun si' hsi' _ hM' _ => ?_⟩
              · rw [← hp]
                rfl
              · injection hsi' with he
                rw [← he] at hM'
                rw [hM'] at hM
                exact Bool.noConfusion hM
        · rw [if_neg hM] at hp
          by_cases hX : pyContains si "X11".data = true
          · rw [if_pos hX] at hp
            cases hsp : splitSecond si with
            | none => simp only [hsp] at hp; exact Option.noConfusion hp
            | some second =>
              simp only [hsp, Option.some.injEq] at hp
              refine ⟨fun he => absurd he hne, fun _ => ?_, fun si' hsi' _ _ hX' => ?_⟩
              · rw [← hp]
                rfl
              · injection hsi' with he
                rw [← he] at hX'
                rw [hX'] at hX
                exact Bool.noConfusion hX
          · rw [if_neg hX] at hp
            simp only [Option.some.injEq] at hp
            refine ⟨fun he => absurd he hne, fun _ => ?_, fun si' hsi' _ _ _ => ?_⟩
            · rw [← hp]
              rfl
            · rw [← hp]
  · rw [if_neg hlen] at hp
    simp only [Option.some.injEq] at hp
    have hua : ua = [] := by
      cases ua with
      | nil => rfl
      | cons c t => exact absurd (by simp : (c :: t).length > 0) hlen
    refine ⟨fun _ => hp.symm, fun hne => absurd hua hne, fun si hsi _ _ _ => ?_⟩
    rw [hua] at hsi
    rw [(by decide : sysInfoOf ([] : List Char) = none)] at hsi
    exact Option.noConfusion hsi

/-- C7 witness: the concrete identity string `foo (bar)` (non-empty, with a
system-info section matching no recognized OS marker) parses with
`platformType` set to its first token `foo`. -/
theorem claim_C7_witness :
    parsePlatform "foo (bar)".data = some ⟨some "foo".data, [], [], some false⟩ ∧
    ((⟨some "foo".data, [], [], some false⟩ : Platform).type).isSome = true :=
  ⟨by decide,
    (claim_C7_platform_type "foo (bar)".data ⟨some "foo".data, [], [], some false⟩
      (by decide)).2.1 (by decide)⟩
